import Mathlib

/-!
Verification development for the PleiadesParser repository
(src/PleiadesParser/PleiadesParser.py).

The Python module parses semi-structured JSON records describing ancient
places into Python objects.  We shallowly embed the parsing layer: JSON
values become an inductive `JValue`; Python dictionary/list subscripting,
truthiness tests, iteration and `len` become explicit partial operations
returning `Except PyErr`; each class constructor (`PleiadesObject`,
`Pleiad`, `BboxContainer`, `GeometryContainer`, `PropertiesContainer`,
`AttestationsContainer`, `NamesContainer`, `Name`) becomes a `build`
function translated statement by statement from the source, preserving
evaluation order (including the order in which Python evaluates the
right-hand side of a subscript assignment before resolving the target).

Numeric JSON literals are modelled as integers (`Int`): the source never
performs arithmetic on them, it only copies them and tests their
truthiness, and every numeric literal relevant to the claims is integral.
-/

namespace PleiadesParser

/-- A parsed JSON value, as handed to the parser by `json.load`.
Object keys are strings (as in JSON). -/
inductive JValue where
  | null
  | bool (b : Bool)
  | num (n : Int)
  | str (s : String)
  | arr (elems : List JValue)
  | obj (fields : List (String × JValue))

/-- Python runtime errors raised by the source module.  `keyError` carries
the (string rendering of the) missing key, `nameError` the unbound
identifier. -/
inductive PyErr where
  | keyError (k : String)
  | indexError
  | typeError
  | nameError (n : String)
deriving DecidableEq

mutual

/-- Structural equality on JSON values, the meaning of Python's `==` on
the (string-keyed) values the module compares.  (Python's numeric
cross-type equalities such as `True == 1` cannot arise here: the
dictionary keys the module compares are vocabulary labels from the
input, which are strings in the data.) -/
def JValue.beq : JValue → JValue → Bool
  | .null, .null => true
  | .bool a, .bool b => a == b
  | .num a, .num b => a == b
  | .str a, .str b => a == b
  | .arr xs, .arr ys => JValue.beqList xs ys
  | .obj xs, .obj ys => JValue.beqPairs xs ys
  | _, _ => false

/-- Pointwise structural equality of value lists. -/
def JValue.beqList : List JValue → List JValue → Bool
  | [], [] => true
  | x :: xs, y :: ys => JValue.beq x y && JValue.beqList xs ys
  | _, _ => false

/-- Pointwise structural equality of object field lists. -/
def JValue.beqPairs : List (String × JValue) → List (String × JValue) → Bool
  | [], [] => true
  | (k, v) :: xs, (k', v') :: ys =>
    k == k' && JValue.beq v v' && JValue.beqPairs xs ys
  | _, _ => false

end

/-- Python truthiness (`bool(v)`): `None`, `False`, `0`, `""`, `[]` and
`{}` are falsy, everything else truthy. -/
def pyTruthy : JValue → Bool
  | .null => false
  | .bool b => b
  | .num n => n != 0
  | .str s => s != ""
  | .arr xs => !xs.isEmpty
  | .obj kvs => !kvs.isEmpty

/-- Lookup of a string key in an object's field list (parsed JSON objects
have unique keys, so first match is the match). -/
def jlookup : List (String × JValue) → String → Option JValue
  | [], _ => none
  | (k', v) :: rest, k => if k' = k then some v else jlookup rest k

/-- Python's `v[k]` for a string key `k`: dictionary lookup, `KeyError` on
a missing key, `TypeError` on non-dictionaries. -/
def pyGetItem (v : JValue) (k : String) : Except PyErr JValue :=
  match v with
  | .obj kvs =>
    match jlookup kvs k with
    | some x => .ok x
    | none => .error (.keyError k)
  | _ => .error .typeError

/-- Python's `v[i]` for an integer index: list indexing (`IndexError` out
of range), string indexing (yielding one-character strings), `KeyError` on
dictionaries (whose keys here are strings), `TypeError` otherwise. -/
def pyIndex (v : JValue) (i : Nat) : Except PyErr JValue :=
  match v with
  | .arr xs =>
    match xs.get? i with
    | some x => .ok x
    | none => .error .indexError
  | .str s =>
    match s.toList.drop i with
    | c :: _ => .ok (.str (String.mk [c]))
    | [] => .error .indexError
  | .obj _ => .error (.keyError (toString i))
  | _ => .error .typeError

/-- Python's `for x in v`: lists yield their elements, strings their
characters, dictionaries their keys; other values are not iterable. -/
def pyIterate (v : JValue) : Except PyErr (List JValue) :=
  match v with
  | .arr xs => .ok xs
  | .str s => .ok (s.toList.map (fun c => .str (String.mk [c])))
  | .obj kvs => .ok (kvs.map (fun p => .str p.1))
  | _ => .error .typeError

/-- Python's `len(v)`. -/
def pyLen (v : JValue) : Except PyErr Nat :=
  match v with
  | .arr xs => .ok xs.length
  | .str s => .ok s.toList.length
  | .obj kvs => .ok kvs.length
  | _ => .error .typeError

/-- A Python dictionary built by the module (keys and values are JSON
values taken from the input), in insertion order. -/
abbrev PyDict := List (JValue × JValue)

/-- Dictionary read `d[k]` as an `Option` (keys are unique by
construction). -/
def pyDictGet : PyDict → JValue → Option JValue
  | [], _ => none
  | (k', v) :: rest, k => if JValue.beq k' k then some v else pyDictGet rest k

/-- Python's `d[k] = v`: overwrite in place if the key is present
(keeping its position, as Python dictionaries do), else append —
last write wins. -/
def pyDictSet (d : PyDict) (k v : JValue) : PyDict :=
  if d.any (fun p => JValue.beq p.1 k) then
    d.map (fun p => if JValue.beq p.1 k then (k, v) else p)
  else d ++ [(k, v)]

/-- The body of the four `add_*` methods of `PleiadesObject`:
`if key not in table.keys(): table[key] = value` — first write wins. -/
def addFirstWins (d : PyDict) (k v : JValue) : PyDict :=
  if d.any (fun p => JValue.beq p.1 k) then d else d ++ [(k, v)]

/-- `AttestationsContainer.__init__`'s loop.  Each assignment
`self.attestations[ad['timePeriod']] = ad['confidence']` evaluates its
right-hand side first (hence `confidence` is read before `timePeriod`),
then stores with last-write-wins. -/
def attLoop : List JValue → PyDict → Except PyErr PyDict
  | [], d => .ok d
  | a :: rest, d => do
    let c ← pyGetItem a "confidence"
    let tp ← pyGetItem a "timePeriod"
    attLoop rest (pyDictSet d tp c)

/-- `AttestationsContainer.__init__`: iterate the attestation list and
build the timePeriod → confidence dictionary. -/
def AttestationsContainer.build (attestations_list : JValue) :
    Except PyErr PyDict := do
  let items ← pyIterate attestations_list
  attLoop items []

/-- `GeometryContainer`: geometry kind and coordinate list, read
verbatim. -/
structure Geometry where
  geom_type : JValue
  coordinates : JValue

/-- `GeometryContainer.__init__`. -/
def GeometryContainer.build (geometry_dict : JValue) :
    Except PyErr Geometry := do
  let t ← pyGetItem geometry_dict "type"
  let c ← pyGetItem geometry_dict "coordinates"
  pure { geom_type := t, coordinates := c }

/-- `PropertiesContainer`: display properties of a feature. -/
structure Properties where
  snippet : JValue
  link : JValue
  description : JValue
  location_precision : JValue
  title : JValue

/-- `PropertiesContainer.__init__`. -/
def PropertiesContainer.build (properties_dict : JValue) :
    Except PyErr Properties := do
  let s ← pyGetItem properties_dict "snippet"
  let l ← pyGetItem properties_dict "link"
  let d ← pyGetItem properties_dict "description"
  let lp ← pyGetItem properties_dict "location_precision"
  let t ← pyGetItem properties_dict "title"
  pure { snippet := s, link := l, description := d,
         location_precision := lp, title := t }

/-- `BboxContainer`: the four bounding-box coordinates, positional. -/
structure Bbox where
  min_longitude : JValue
  min_latitude : JValue
  max_longitude : JValue
  max_latitude : JValue

/-- `BboxContainer.__init__`: reads `coordinates[0] .. coordinates[3]`
in order; a shorter list raises `IndexError` at the first missing
position. -/
def BboxContainer.build (coordinates : JValue) : Except PyErr Bbox := do
  let a ← pyIndex coordinates 0
  let b ← pyIndex coordinates 1
  let c ← pyIndex coordinates 2
  let d ← pyIndex coordinates 3
  pure { min_longitude := a, min_latitude := b,
         max_longitude := c, max_latitude := d }

/-- `Name`: one attested place name; all eleven fields are unguarded
reads of the raw sub-document. -/
structure Name where
  name_type : JValue
  transcription_accuracy : JValue
  association_certainty : JValue
  romanized_name : JValue
  attestations : PyDict
  name_id : JValue
  transcription_completeness : JValue
  language : JValue
  description : JValue
  name_uri : JValue
  name_attested : JValue

/-- `Name.__init__`: the eleven reads, in source order (`attested` is
read last). -/
def Name.build (attributes : JValue) : Except PyErr Name := do
  let nt ← pyGetItem attributes "nameType"
  let ta ← pyGetItem attributes "transcriptionAccuracy"
  let ac ← pyGetItem attributes "associationCertainty"
  let rn ← pyGetItem attributes "romanized"
  let av ← pyGetItem attributes "attestations"
  let at_ ← AttestationsContainer.build av
  let ni ← pyGetItem attributes "id"
  let tc ← pyGetItem attributes "transcriptionCompleteness"
  let lg ← pyGetItem attributes "language"
  let de ← pyGetItem attributes "description"
  let nu ← pyGetItem attributes "uri"
  let na ← pyGetItem attributes "attested"
  pure { name_type := nt, transcription_accuracy := ta,
         association_certainty := ac, romanized_name := rn,
         attestations := at_, name_id := ni,
         transcription_completeness := tc, language := lg,
         description := de, name_uri := nu, name_attested := na }

/-- The loop of `NamesContainer.__init__` over the index range: build a
`Name` from each indexed entry, in index order. -/
def namesLoop (names_list : JValue) : List Nat → Except PyErr (List Name)
  | [] => .ok []
  | i :: rest => do
    let nv ← pyIndex names_list i
    let nm ← Name.build nv
    let ns ← namesLoop names_list rest
    pure (nm :: ns)

/-- `NamesContainer.__init__`: `for name in range(len(names_list)):
names.append(Name(names_list[name]))`. -/
def NamesContainer.build (names_list : JValue) :
    Except PyErr (List Name) := do
  let n ← pyLen names_list
  namesLoop names_list (List.range n)

/-- The recurring pattern `if graph_dict[k]: self.x = graph_dict[k]`:
a guarded single-field copy.  The read itself is unguarded, so a missing
key raises `KeyError`; a present but falsy value leaves the attribute
unset (`none`). -/
def optField (g : JValue) (k : String) : Except PyErr (Option JValue) := do
  let v ← pyGetItem g k
  pure (if pyTruthy v then some v else none)

/-- The pattern `if graph_dict[k] and graph_dict[k][0]: copy the list
element-wise` used for `subject` and `placeTypes`. -/
def listField (g : JValue) (k : String) :
    Except PyErr (Option (List JValue)) := do
  let v ← pyGetItem g k
  if pyTruthy v then
    let v0 ← pyIndex v 0
    if pyTruthy v0 then do
      let items ← pyIterate v
      pure (some items)
    else pure none
  else pure none

/-- `if graph_dict['bbox'] and graph_dict['bbox'][0]:
self.bbox = BboxContainer(graph_dict['bbox'])`. -/
def bboxField (g : JValue) : Except PyErr (Option Bbox) := do
  let v ← pyGetItem g "bbox"
  if pyTruthy v then
    let v0 ← pyIndex v 0
    if pyTruthy v0 then do
      let bb ← BboxContainer.build v
      pure (some bb)
    else pure none
  else pure none

/-- `if graph_dict['reprPoint'] and graph_dict['reprPoint'][0]:
self.repr_point = graph_dict['reprPoint']`. -/
def reprPointField (g : JValue) : Except PyErr (Option JValue) := do
  let v ← pyGetItem g "reprPoint"
  if pyTruthy v then
    let v0 ← pyIndex v 0
    if pyTruthy v0 then pure (some v) else pure none
  else pure none

/-- The connections block, duplicated verbatim in `PleiadesObject.__init__`
(lines 263-266) and `Pleiad.__init__` (lines 398-401):

    if graph_dict['connections'] and graph_dict['connections'][0]:
        self.connections = {}
        for item in graph_dict['connections']:
            connections[item['id']] = item['connectionType']

The loop body assigns through the bare name `connections`, which is never
bound: for each item Python first evaluates the right-hand side
`item['connectionType']`, then resolves the assignment target
`connections` and raises `NameError`.  `item['id']` is never read. -/
def connectionsPart (g : JValue) : Except PyErr (Option PyDict) := do
  let conns ← pyGetItem g "connections"
  if pyTruthy conns then
    let c0 ← pyIndex conns 0
    if pyTruthy c0 then
      let items ← pyIterate conns
      match items with
      | [] => pure (some [])
      | item :: _ => do
        let _ ← pyGetItem item "connectionType"
        Except.error (.nameError "connections")
    else pure none
  else pure none

/-- The names block, duplicated verbatim in both constructors:
`if graph_dict['names'] and graph_dict['names'][0]:
self.names = NamesContainer(graph_dict['names'])`. -/
def namesPart (g : JValue) : Except PyErr (Option (List Name)) := do
  let nv ← pyGetItem g "names"
  if pyTruthy nv then
    let n0 ← pyIndex nv 0
    if pyTruthy n0 then do
      let ns ← NamesContainer.build nv
      pure (some ns)
    else pure none
  else pure none

/-- The curated output object (`class Pleiad`); every attribute is
optional because every assignment in the constructor is guarded. -/
structure Pleiad where
  geometry : Option Geometry
  text_id : Option JValue
  attestations : Option PyDict
  start_date : Option JValue
  end_date : Option JValue
  archaeological_remains : Option JValue
  connections : Option PyDict
  names : Option (List Name)
  id : Option JValue
  subjects : Option (List JValue)
  title : Option JValue
  details : Option JValue
  uri : Option JValue
  description : Option JValue
  place_types : Option (List JValue)
  bbox : Option Bbox
  repr_point : Option JValue

/-- `Pleiad.__init__`, features block (lines 382-386): geometry and
feature id only. -/
def Pleiad.featuresPart (g : JValue) :
    Except PyErr (Option Geometry × Option JValue) := do
  let fv ← pyGetItem g "features"
  if pyTruthy fv then
    let f0 ← pyIndex fv 0
    if pyTruthy f0 then
      let gv ← pyGetItem f0 "geometry"
      let geo ← if pyTruthy gv then do
          let gc ← GeometryContainer.build gv
          pure (some gc)
        else pure none
      let iv ← pyGetItem f0 "id"
      pure (geo, if pyTruthy iv then some iv else none)
    else pure (none, none)
  else pure (none, none)

/-- `Pleiad.__init__`, locations block (lines 388-396): attestation
table, start/end dates and archaeological remains of the first
location, each under a truthiness guard. -/
def Pleiad.locationsPart (g : JValue) :
    Except PyErr (Option PyDict × Option JValue × Option JValue × Option JValue) := do
  let locs ← pyGetItem g "locations"
  if pyTruthy locs then
    let l0 ← pyIndex locs 0
    if pyTruthy l0 then
      let av ← pyGetItem l0 "attestations"
      let atts ← if pyTruthy av then do
          let t ← AttestationsContainer.build av
          pure (some t)
        else pure none
      let sv ← pyGetItem l0 "start"
      let ev ← pyGetItem l0 "end"
      let arv ← pyGetItem l0 "archaeologicalRemains"
      pure (atts,
            if pyTruthy sv then some sv else none,
            if pyTruthy ev then some ev else none,
            if pyTruthy arv then some arv else none)
    else pure (none, none, none, none)
  else pure (none, none, none, none)

/-- `Pleiad.__init__` (lines 380-427), block by block in source order:
features, locations, connections, names, then the flat fields. -/
def Pleiad.build (g : JValue) : Except PyErr Pleiad := do
  let ft ← Pleiad.featuresPart g
  let lc ← Pleiad.locationsPart g
  let conns ← connectionsPart g
  let nms ← namesPart g
  let i ← optField g "id"
  let subj ← listField g "subject"
  let tit ← optField g "title"
  let det ← optField g "details"
  let u ← optField g "uri"
  let desc ← optField g "description"
  let pts ← listField g "placeTypes"
  let bb ← bboxField g
  let rp ← reprPointField g
  pure { geometry := ft.1, text_id := ft.2, attestations := lc.1,
         start_date := lc.2.1, end_date := lc.2.2.1,
         archaeological_remains := lc.2.2.2,
         connections := conns, names := nms, id := i, subjects := subj,
         title := tit, details := det, uri := u, description := desc,
         place_types := pts, bbox := bb, repr_point := rp }

/-- The full-fidelity output object (`class PleiadesObject`).  The four
dictionaries at the top are the per-record vocabulary tables, which start
empty and are only ever filled through the `add_*` methods while walking
the locations block. -/
structure PleiadesObject where
  time_periods : PyDict
  confidence_metrics : PyDict
  association_certainties : PyDict
  location_types : PyDict
  features_geometry : Option Geometry
  features_type : Option JValue
  features_id : Option JValue
  features_properties : Option Properties
  locations_associationCertainty : Option JValue
  locations_attestations : Option PyDict
  locations_id : Option JValue
  locations_featureTypeURI : Option JValue
  locations_start : Option JValue
  locations_end : Option JValue
  locations_title : Option JValue
  locations_archaeologicalRemains : Option JValue
  locations_details : Option JValue
  locations_accuracy_value : Option JValue
  locations_featureType : Option JValue
  locations_description : Option JValue
  locations_locationType : Option JValue
  locations_uri : Option JValue
  locations_type : Option JValue
  connections : Option PyDict
  names : Option (List Name)
  id : Option JValue
  subjects : Option (List JValue)
  title : Option JValue
  provenance : Option JValue
  details : Option JValue
  type : Option JValue
  uri : Option JValue
  description : Option JValue
  place_types : Option (List JValue)
  bbox : Option Bbox
  repr_point : Option JValue

/-- `PleiadesObject.add_time_period`: first write wins. -/
def PleiadesObject.add_time_period (p : PleiadesObject) (tp uri : JValue) :
    PleiadesObject :=
  { p with time_periods := addFirstWins p.time_periods tp uri }

/-- `PleiadesObject.add_confidence_metric`: first write wins. -/
def PleiadesObject.add_confidence_metric (p : PleiadesObject) (cm uri : JValue) :
    PleiadesObject :=
  { p with confidence_metrics := addFirstWins p.confidence_metrics cm uri }

/-- `PleiadesObject.add_association_certainty`: first write wins. -/
def PleiadesObject.add_association_certainty (p : PleiadesObject) (c uri : JValue) :
    PleiadesObject :=
  { p with association_certainties := addFirstWins p.association_certainties c uri }

/-- `PleiadesObject.add_location_type`: first write wins. -/
def PleiadesObject.add_location_type (p : PleiadesObject) (lt uri : JValue) :
    PleiadesObject :=
  { p with location_types := addFirstWins p.location_types lt uri }

/-- The fields set by the locations block of `PleiadesObject.__init__`,
including the four vocabulary tables it accumulates. -/
structure LocParts where
  assocCert : Option JValue := none
  attestations : Option PyDict := none
  locId : Option JValue := none
  featureTypeURI : Option JValue := none
  start : Option JValue := none
  stop : Option JValue := none
  ltitle : Option JValue := none
  archRemains : Option JValue := none
  ldetails : Option JValue := none
  accuracy : Option JValue := none
  featureType : Option JValue := none
  ldescription : Option JValue := none
  locationType : Option JValue := none
  luri : Option JValue := none
  ltype : Option JValue := none
  timePeriods : PyDict := []
  confidenceMetrics : PyDict := []
  associationCertainties : PyDict := []
  locationTypes : PyDict := []

/-- Lines 230-234 of `PleiadesObject.__init__`: for each attestation,
register (timePeriod → timePeriodURI) in the time-period table and
(confidence → confidenceURI) in the confidence table, both first-write-
wins, reading the four keys of each attestation in argument order. -/
def addLoop : List JValue → PyDict → PyDict → Except PyErr (PyDict × PyDict)
  | [], tps, cms => .ok (tps, cms)
  | a :: rest, tps, cms => do
    let tp ← pyGetItem a "timePeriod"
    let tpu ← pyGetItem a "timePeriodURI"
    let c ← pyGetItem a "confidence"
    let cu ← pyGetItem a "confidenceURI"
    addLoop rest (addFirstWins tps tp tpu) (addFirstWins cms c cu)

/-- `PleiadesObject.__init__`, features block (lines 213-221):
geometry, type, id and display properties of the first feature. -/
def PleiadesObject.featuresPart (g : JValue) :
    Except PyErr (Option Geometry × Option JValue × Option JValue × Option Properties) := do
  let fv ← pyGetItem g "features"
  if pyTruthy fv then
    let f0 ← pyIndex fv 0
    if pyTruthy f0 then
      let gv ← pyGetItem f0 "geometry"
      let geo ← if pyTruthy gv then do
          let gc ← GeometryContainer.build gv
          pure (some gc)
        else pure none
      let tv ← pyGetItem f0 "type"
      let iv ← pyGetItem f0 "id"
      let pv ← pyGetItem f0 "properties"
      let props ← if pyTruthy pv then do
          let pc ← PropertiesContainer.build pv
          pure (some pc)
        else pure none
      pure (geo, if pyTruthy tv then some tv else none,
            if pyTruthy iv then some iv else none, props)
    else pure (none, none, none, none)
  else pure (none, none, none, none)

/-- `PleiadesObject.__init__`, locations block (lines 223-261), reads in
source order: associationCertainty (registering it with its URI),
attestations (building the attestation table, then the add loop), id,
featureTypeURI (registering featureType[0] → featureTypeURI[0]), start,
end, title, archaeologicalRemains, details, accuracy_value, featureType,
description, locationType, uri, @type. -/
def PleiadesObject.locationsPart (g : JValue) : Except PyErr LocParts := do
  let locs ← pyGetItem g "locations"
  if pyTruthy locs then
    let l0 ← pyIndex locs 0
    if pyTruthy l0 then
      let acv ← pyGetItem l0 "associationCertainty"
      let (assocCert, acTable) ← if pyTruthy acv then do
          let acu ← pyGetItem l0 "associationCertaintyURI"
          pure (some acv, addFirstWins [] acv acu)
        else pure (none, ([] : PyDict))
      let av ← pyGetItem l0 "attestations"
      let (atts, tpTable, cmTable) ← if pyTruthy av then do
          let t ← AttestationsContainer.build av
          let items ← pyIterate av
          let (tps, cms) ← addLoop items [] []
          pure (some t, tps, cms)
        else pure (none, ([] : PyDict), ([] : PyDict))
      let idv ← pyGetItem l0 "id"
      let ftuv ← pyGetItem l0 "featureTypeURI"
      let (ftu, ltTable) ← if pyTruthy ftuv then do
          let ftu0 ← pyIndex ftuv 0
          if pyTruthy ftu0 then do
            let ftv ← pyGetItem l0 "featureType"
            let ft0 ← pyIndex ftv 0
            pure (some ftu0, addFirstWins [] ft0 ftu0)
          else pure (none, ([] : PyDict))
        else pure (none, ([] : PyDict))
      let sv ← pyGetItem l0 "start"
      let ev ← pyGetItem l0 "end"
      let tv ← pyGetItem l0 "title"
      let arv ← pyGetItem l0 "archaeologicalRemains"
      let dv ← pyGetItem l0 "details"
      let accv ← pyGetItem l0 "accuracy_value"
      let ftv2 ← pyGetItem l0 "featureType"
      let ft ← if pyTruthy ftv2 then do
          let f0 ← pyIndex ftv2 0
          pure (if pyTruthy f0 then some f0 else none)
        else pure none
      let descv ← pyGetItem l0 "description"
      let ltv ← pyGetItem l0 "locationType"
      let lt ← if pyTruthy ltv then do
          let lt0 ← pyIndex ltv 0
          pure (if pyTruthy lt0 then some lt0 else none)
        else pure none
      let uv ← pyGetItem l0 "uri"
      let tyv ← pyGetItem l0 "@type"
      pure { assocCert := assocCert, attestations := atts,
             locId := if pyTruthy idv then some idv else none,
             featureTypeURI := ftu,
             start := if pyTruthy sv then some sv else none,
             stop := if pyTruthy ev then some ev else none,
             ltitle := if pyTruthy tv then some tv else none,
             archRemains := if pyTruthy arv then some arv else none,
             ldetails := if pyTruthy dv then some dv else none,
             accuracy := if pyTruthy accv then some accv else none,
             featureType := ft,
             ldescription := if pyTruthy descv then some descv else none,
             locationType := lt,
             luri := if pyTruthy uv then some uv else none,
             ltype := if pyTruthy tyv then some tyv else none,
             timePeriods := tpTable, confidenceMetrics := cmTable,
             associationCertainties := acTable, locationTypes := ltTable }
    else pure {}
  else pure {}

/-- `PleiadesObject.__init__` (lines 206-294), block by block in source
order: features, locations (with the vocabulary tables), connections,
names, then the flat fields. -/
def PleiadesObject.build (g : JValue) : Except PyErr PleiadesObject := do
  let ft ← PleiadesObject.featuresPart g
  let lp ← PleiadesObject.locationsPart g
  let conns ← connectionsPart g
  let nms ← namesPart g
  let i ← optField g "id"
  let subj ← listField g "subject"
  let tit ← optField g "title"
  let prov ← optField g "provenance"
  let det ← optField g "details"
  let ty ← optField g "type"
  let u ← optField g "uri"
  let desc ← optField g "description"
  let pts ← listField g "placeTypes"
  let bb ← bboxField g
  let rp ← reprPointField g
  pure { time_periods := lp.timePeriods,
         confidence_metrics := lp.confidenceMetrics,
         association_certainties := lp.associationCertainties,
         location_types := lp.locationTypes,
         features_geometry := ft.1, features_type := ft.2.1,
         features_id := ft.2.2.1, features_properties := ft.2.2.2,
         locations_associationCertainty := lp.assocCert,
         locations_attestations := lp.attestations,
         locations_id := lp.locId,
         locations_featureTypeURI := lp.featureTypeURI,
         locations_start := lp.start, locations_end := lp.stop,
         locations_title := lp.ltitle,
         locations_archaeologicalRemains := lp.archRemains,
         locations_details := lp.ldetails,
         locations_accuracy_value := lp.accuracy,
         locations_featureType := lp.featureType,
         locations_description := lp.ldescription,
         locations_locationType := lp.locationType,
         locations_uri := lp.luri, locations_type := lp.ltype,
         connections := conns, names := nms, id := i, subjects := subj,
         title := tit, provenance := prov, details := det, type := ty,
         uri := u, description := desc, place_types := pts,
         bbox := bb, repr_point := rp }

/-- `PleiadesGetter.get_pleiads`: build a `Pleiad` from each record in
input order, appending as Python's loop does; an exception from any
record aborts the whole call. -/
def PleiadesGetter.get_pleiads : List JValue → Except PyErr (List Pleiad)
  | [] => .ok []
  | r :: rest => do
    let p ← Pleiad.build r
    let ps ← PleiadesGetter.get_pleiads rest
    pure (p :: ps)

/-- `PleiadesGetter.get_pleiades_objects`: same loop producing
`PleiadesObject`s. -/
def PleiadesGetter.get_pleiades_objects :
    List JValue → Except PyErr (List PleiadesObject)
  | [] => .ok []
  | r :: rest => do
    let p ← PleiadesObject.build r
    let ps ← PleiadesGetter.get_pleiades_objects rest
    pure (p :: ps)

/-! ### Shared concrete inputs and outputs -/

/-- A raw record with every top-level key present and null — the minimal
record both constructors accept. -/
def nullRec : JValue := .obj [("features", .null), ("locations", .null),
  ("connections", .null), ("names", .null), ("id", .null),
  ("subject", .null), ("title", .null), ("provenance", .null),
  ("details", .null), ("type", .null), ("uri", .null),
  ("description", .null), ("placeTypes", .null), ("bbox", .null),
  ("reprPoint", .null)]

/-- `nullRec` with the `locations` entry replaced by `lv`. -/
def recWithLocations (lv : JValue) : JValue := .obj [("features", .null),
  ("locations", lv), ("connections", .null), ("names", .null),
  ("id", .null), ("subject", .null), ("title", .null),
  ("provenance", .null), ("details", .null), ("type", .null),
  ("uri", .null), ("description", .null), ("placeTypes", .null),
  ("bbox", .null), ("reprPoint", .null)]

/-- `nullRec` with the `connections` entry replaced by `cv`. -/
def recWithConnections (cv : JValue) : JValue := .obj [("features", .null),
  ("locations", .null), ("connections", cv), ("names", .null),
  ("id", .null), ("subject", .null), ("title", .null),
  ("provenance", .null), ("details", .null), ("type", .null),
  ("uri", .null), ("description", .null), ("placeTypes", .null),
  ("bbox", .null), ("reprPoint", .null)]

/-- `nullRec` with the `names` entry replaced by `nv`. -/
def recWithNames (nv : JValue) : JValue := .obj [("features", .null),
  ("locations", .null), ("connections", .null), ("names", nv),
  ("id", .null), ("subject", .null), ("title", .null),
  ("provenance", .null), ("details", .null), ("type", .null),
  ("uri", .null), ("description", .null), ("placeTypes", .null),
  ("bbox", .null), ("reprPoint", .null)]

/-- A location sub-document with every key the locations block reads
present; `start` is the parameter, everything else null. -/
def locWithStart (v : JValue) : JValue := .obj
  [("associationCertainty", .null), ("attestations", .null),
   ("id", .null), ("featureTypeURI", .null), ("start", v),
   ("end", .null), ("title", .null), ("archaeologicalRemains", .null),
   ("details", .null), ("accuracy_value", .null), ("featureType", .null),
   ("description", .null), ("locationType", .null), ("uri", .null),
   ("@type", .null)]

/-- Like `locWithStart` but with the attestation list as parameter. -/
def locWithAttestations (av : JValue) : JValue := .obj
  [("associationCertainty", .null), ("attestations", av),
   ("id", .null), ("featureTypeURI", .null), ("start", .null),
   ("end", .null), ("title", .null), ("archaeologicalRemains", .null),
   ("details", .null), ("accuracy_value", .null), ("featureType", .null),
   ("description", .null), ("locationType", .null), ("uri", .null),
   ("@type", .null)]

/-- The `Pleiad` produced from `nullRec`: every attribute unset. -/
def pleiadEmptyOut : Pleiad :=
  { geometry := none, text_id := none, attestations := none,
    start_date := none, end_date := none, archaeological_remains := none,
    connections := none, names := none, id := none, subjects := none,
    title := none, details := none, uri := none, description := none,
    place_types := none, bbox := none, repr_point := none }

/-- The `PleiadesObject` produced from `nullRec`: every attribute unset,
all four vocabulary tables empty. -/
def pleiadesObjectEmptyOut : PleiadesObject :=
  { time_periods := [], confidence_metrics := [],
    association_certainties := [], location_types := [],
    features_geometry := none, features_type := none,
    features_id := none, features_properties := none,
    locations_associationCertainty := none, locations_attestations := none,
    locations_id := none, locations_featureTypeURI := none,
    locations_start := none, locations_end := none,
    locations_title := none, locations_archaeologicalRemains := none,
    locations_details := none, locations_accuracy_value := none,
    locations_featureType := none, locations_description := none,
    locations_locationType := none, locations_uri := none,
    locations_type := none, connections := none, names := none,
    id := none, subjects := none, title := none, provenance := none,
    details := none, type := none, uri := none, description := none,
    place_types := none, bbox := none, repr_point := none }

/-! ### General lemmas about the embedding's primitives -/

/-- Inversion of a successful monadic bind in `Except`. -/
theorem except_bind_ok {ε α β : Type} (x : Except ε α)
    (f : α → Except ε β) (b : β) :
    (x >>= f = Except.ok b) ↔ ∃ a, x = Except.ok a ∧ f a = Except.ok b := by
  cases x <;> simp [Bind.bind, Except.bind]

/-- `pure` produces exactly its argument. -/
theorem except_pure_ok {ε α : Type} (a b : α) :
    (pure a : Except ε α) = Except.ok b ↔ a = b := by
  simp [Pure.pure, Except.pure]

mutual

/-- Structural equality is reflexive. -/
theorem JValue.beq_refl : ∀ a : JValue, JValue.beq a a = true
  | .null => rfl
  | .bool b => by simp [JValue.beq]
  | .num n => by simp [JValue.beq]
  | .str s => by simp [JValue.beq]
  | .arr xs => by simpa [JValue.beq] using JValue.beqList_refl xs
  | .obj kvs => by simpa [JValue.beq] using JValue.beqPairs_refl kvs

theorem JValue.beqList_refl : ∀ xs : List JValue, JValue.beqList xs xs = true
  | [] => rfl
  | x :: xs => by
    simp only [JValue.beqList, Bool.and_eq_true]
    exact ⟨JValue.beq_refl x, JValue.beqList_refl xs⟩

theorem JValue.beqPairs_refl :
    ∀ xs : List (String × JValue), JValue.beqPairs xs xs = true
  | [] => rfl
  | (k, v) :: xs => by
    simp only [JValue.beqPairs, Bool.and_eq_true, beq_self_eq_true, true_and]
    exact ⟨JValue.beq_refl v, JValue.beqPairs_refl xs⟩

end

/-- Looking up the key just written by `pyDictSet` returns the written
value: the dictionary write is last-write-wins. -/
theorem pyDictGet_pyDictSet (d : PyDict) (k v : JValue) :
    pyDictGet (pyDictSet d k v) k = some v := by
  unfold pyDictSet
  by_cases h : d.any (fun p => JValue.beq p.1 k) = true
  · rw [if_pos h]
    induction d with
    | nil => simp at h
    | cons p rest ih =>
      simp only [List.any_cons, Bool.or_eq_true] at h
      cases hp : JValue.beq p.1 k with
      | true =>
        simp only [List.map_cons]
        rw [hp]
        simp [pyDictGet, JValue.beq_refl]
      | false =>
        have hrest : rest.any (fun p => JValue.beq p.1 k) = true := by
          rcases h with h | h
          · rw [hp] at h; cases h
          · exact h
        simp only [List.map_cons]
        rw [hp]
        simp [pyDictGet, hp]
        exact ih hrest
  · rw [if_neg h]
    induction d with
    | nil => simp [pyDictGet, JValue.beq_refl]
    | cons p rest ih =>
      simp only [List.any_cons, Bool.or_eq_true, not_or] at h
      have hp : JValue.beq p.1 k = false := by
        cases hb : JValue.beq p.1 k
        · rfl
        · exact absurd hb h.1
      simp only [List.cons_append]
      simp [pyDictGet, hp]
      exact ih (by simpa using h.2)

/-- Adding a label already present in a table leaves it unchanged
(first-write-wins). -/
theorem addFirstWins_present (d : PyDict) (k v : JValue)
    (h : d.any (fun p => JValue.beq p.1 k) = true) :
    addFirstWins d k v = d := by
  simp [addFirstWins, h]

/-- Registering the same (label, URI) pair twice yields the same table
as registering it once. -/
theorem addFirstWins_idem (d : PyDict) (k v : JValue) :
    addFirstWins (addFirstWins d k v) k v = addFirstWins d k v := by
  by_cases h : d.any (fun p => JValue.beq p.1 k) = true
  · simp [addFirstWins, h]
  · simp only [addFirstWins, if_neg h]
    rw [if_pos]
    simp [List.any_append, JValue.beq_refl]

/-- `attLoop` over a list of well-formed attestation entries performs the
dictionary writes in input order. -/
theorem attLoop_map (l : List (JValue × JValue)) :
    ∀ d : PyDict,
      attLoop (l.map (fun p =>
        JValue.obj [("timePeriod", p.1), ("confidence", p.2)])) d
      = .ok (l.foldl (fun d p => pyDictSet d p.1 p.2) d) := by
  induction l with
  | nil => intro d; rfl
  | cons p l ih => intro d; exact ih (pyDictSet d p.1 p.2)

/-! ### Claim C6 — BoundingBox positional construction and arity -/

/-- C6: `BboxContainer` built from `[10.0, 20.0, 30.0, 40.0]` assigns
min-longitude, min-latitude, max-longitude, max-latitude positionally in
that order (and does so for any list of length ≥ 4); built from a
3-element list it fails (Python `IndexError` at `coordinates[3]`, the
spec's ShapeMismatch) rather than succeeding. -/
theorem bbox_positional_and_arity :
    BboxContainer.build (.arr [.num 10, .num 20, .num 30, .num 40]) =
      .ok { min_longitude := .num 10, min_latitude := .num 20,
            max_longitude := .num 30, max_latitude := .num 40 }
    ∧ BboxContainer.build (.arr [.num 10, .num 20, .num 30]) =
      .error .indexError
    ∧ ∀ (a b c d : JValue) (rest : List JValue),
        BboxContainer.build (.arr (a :: b :: c :: d :: rest)) =
          .ok { min_longitude := a, min_latitude := b,
                max_longitude := c, max_latitude := d } :=
  ⟨rfl, rfl, fun _ _ _ _ _ => rfl⟩

/-! ### Claim C2 — connections building is broken in the source -/

/-- The connections list of the spec's example: two edges to record "X",
relation types "borders" then "near". -/
def connDupList : JValue := .arr
  [.obj [("id", .str "X"), ("connectionType", .str "borders")],
   .obj [("id", .str "X"), ("connectionType", .str "near")]]

/-- C2 (code bug): on a record whose connections list is the spec's
example, both constructors raise `NameError` — the loop assigns through
the unbound global name `connections` instead of `self.connections` — so
no Connections mapping is ever built and the claimed `{"X": "near"}`
result is unreachable. -/
theorem connections_nameError :
    Pleiad.build (recWithConnections connDupList) =
      .error (.nameError "connections")
    ∧ PleiadesObject.build (recWithConnections connDupList) =
      .error (.nameError "connections") :=
  ⟨rfl, rfl⟩

/-! ### Claim C3 — AttestationTable order and last-write-wins -/

/-- C3: the attestation table is built by processing entries in input
order with Python dictionary writes; a duplicated time-period keeps the
later confidence (`[("Classical","low"),("Classical","high")]` yields
`{"Classical": "high"}`), the empty list yields the empty table, and a
write always wins over earlier writes of the same key. -/
theorem attestation_table_last_write_wins :
    AttestationsContainer.build (.arr
      [.obj [("timePeriod", .str "Classical"), ("confidence", .str "low")],
       .obj [("timePeriod", .str "Classical"), ("confidence", .str "high")]])
      = .ok [(.str "Classical", .str "high")]
    ∧ AttestationsContainer.build (.arr []) = .ok []
    ∧ (∀ l : List (JValue × JValue),
        AttestationsContainer.build (.arr (l.map (fun p =>
          JValue.obj [("timePeriod", p.1), ("confidence", p.2)])))
          = .ok (l.foldl (fun d p => pyDictSet d p.1 p.2) []))
    ∧ ∀ (d : PyDict) (k v : JValue), pyDictGet (pyDictSet d k v) k = some v :=
  ⟨rfl, rfl, fun l => attLoop_map l [], pyDictGet_pyDictSet⟩

/-! ### Claim C4 — vocabulary tables are first-write-wins and
idempotent under duplication -/

/-- An attestation entry carrying the spec's duplicated pair
(timePeriod "Classical", uri "U1"). -/
def attClassical : JValue := .obj
  [("timePeriod", .str "Classical"), ("timePeriodURI", .str "U1"),
   ("confidence", .str "high"), ("confidenceURI", .str "CU")]

/-- The `PleiadesObject` produced from a record whose only non-null
content is an attestation list containing `attClassical` twice: each
vocabulary table holds the single first-written entry. -/
def objDupOut : PleiadesObject :=
  { pleiadesObjectEmptyOut with
    time_periods := [(.str "Classical", .str "U1")],
    confidence_metrics := [(.str "high", .str "CU")],
    locations_attestations := some [(.str "Classical", .str "high")] }

/-- C4: each of the four vocabulary tables maps a label to at most one
URI with the first occurrence winning — an add on a label already in the
table leaves the table unchanged, registering the same pair twice equals
registering it once — and a record whose attestation list repeats
(timePeriod "Classical", uri "U1") yields a time-period table with that
single entry. -/
theorem vocab_tables_first_write_wins :
    (∀ (p : PleiadesObject) (k v : JValue),
        (p.time_periods.any fun q => JValue.beq q.1 k) = true →
        p.add_time_period k v = p)
    ∧ (∀ (p : PleiadesObject) (k v : JValue),
        (p.confidence_metrics.any fun q => JValue.beq q.1 k) = true →
        p.add_confidence_metric k v = p)
    ∧ (∀ (p : PleiadesObject) (k v : JValue),
        (p.association_certainties.any fun q => JValue.beq q.1 k) = true →
        p.add_association_certainty k v = p)
    ∧ (∀ (p : PleiadesObject) (k v : JValue),
        (p.location_types.any fun q => JValue.beq q.1 k) = true →
        p.add_location_type k v = p)
    ∧ (∀ (p : PleiadesObject) (k v : JValue),
        (p.add_time_period k v).add_time_period k v = p.add_time_period k v)
    ∧ (∀ (p : PleiadesObject) (k v : JValue),
        (p.add_confidence_metric k v).add_confidence_metric k v =
          p.add_confidence_metric k v)
    ∧ (∀ (p : PleiadesObject) (k v : JValue),
        (p.add_association_certainty k v).add_association_certainty k v =
          p.add_association_certainty k v)
    ∧ (∀ (p : PleiadesObject) (k v : JValue),
        (p.add_location_type k v).add_location_type k v =
          p.add_location_type k v)
    ∧ PleiadesObject.build
        (recWithLocations (.arr [locWithAttestations
          (.arr [attClassical, attClassical])])) = .ok objDupOut := by
  refine ⟨?_, ?_, ?_, ?_, ?_, ?_, ?_, ?_, rfl⟩
  · intro p k v h
    unfold PleiadesObject.add_time_period
    rw [addFirstWins_present _ _ _ h]
  · intro p k v h
    unfold PleiadesObject.add_confidence_metric
    rw [addFirstWins_present _ _ _ h]
  · intro p k v h
    unfold PleiadesObject.add_association_certainty
    rw [addFirstWins_present _ _ _ h]
  · intro p k v h
    unfold PleiadesObject.add_location_type
    rw [addFirstWins_present _ _ _ h]
  · intro p k v
    unfold PleiadesObject.add_time_period
    rw [addFirstWins_idem]
  · intro p k v
    unfold PleiadesObject.add_confidence_metric
    rw [addFirstWins_idem]
  · intro p k v
    unfold PleiadesObject.add_association_certainty
    rw [addFirstWins_idem]
  · intro p k v
    unfold PleiadesObject.add_location_type
    rw [addFirstWins_idem]

/-- Witness for C4 at a concrete table: adding the already-present label
"Classical" to `objDupOut`'s time-period table changes nothing. -/
theorem vocab_tables_first_write_wins_witness :
    (objDupOut.time_periods.any fun q => JValue.beq q.1 (.str "Classical"))
      = true
    ∧ objDupOut.add_time_period (.str "Classical") (.str "U9") = objDupOut :=
  ⟨rfl, vocab_tables_first_write_wins.1 objDupOut (.str "Classical")
    (.str "U9") rfl⟩

/-! ### Claim C1 — records without a locations entry -/

/-- A record with every top-level key the constructors read present
except `locations`. -/
def noLocationsKeyRec : JValue := .obj [("features", .null),
  ("connections", .null), ("names", .null), ("id", .str "1"),
  ("subject", .null), ("title", .null), ("provenance", .null),
  ("details", .null), ("type", .null), ("uri", .null),
  ("description", .null), ("placeTypes", .null), ("bbox", .null),
  ("reprPoint", .null)]

/-- C1 counterexample: a record that truly lacks the "locations" key does
NOT map successfully — both constructors evaluate
`graph_dict['locations']` unguarded and raise `KeyError`. -/
theorem no_locations_key_raises :
    Pleiad.build noLocationsKeyRec = .error (.keyError "locations")
    ∧ PleiadesObject.build noLocationsKeyRec = .error (.keyError "locations") :=
  ⟨rfl, rfl⟩

/-- If the record's `locations` value is present but falsy, the curated
locations block sets nothing. -/
theorem pleiad_locationsPart_falsy (g lv : JValue)
    (h1 : pyGetItem g "locations" = .ok lv) (h2 : pyTruthy lv = false) :
    Pleiad.locationsPart g = .ok (none, none, none, none) := by
  unfold Pleiad.locationsPart
  rw [h1]
  simp [Bind.bind, Except.bind, h2, Pure.pure, Except.pure]

/-- If the record's `locations` value is present but falsy, the full
locations block sets nothing and leaves all four tables empty. -/
theorem pleiadesObject_locationsPart_falsy (g lv : JValue)
    (h1 : pyGetItem g "locations" = .ok lv) (h2 : pyTruthy lv = false) :
    PleiadesObject.locationsPart g = .ok {} := by
  unfold PleiadesObject.locationsPart
  rw [h1]
  simp [Bind.bind, Except.bind, h2, Pure.pure, Except.pure]

/-- C1 as amended: the unguarded read means a record without the
`locations` key raises `KeyError` (see the counterexample), but whenever
the `locations` entry is present with a falsy value (null or empty list)
a successful mapping carries no location-derived field — no attestation
table, start/end date or archaeological-remains on the curated object, no
`locations_*` attribute and only empty vocabulary tables on the full
object — and on an otherwise-null record both mappings do succeed. -/
theorem locations_falsy_omitted :
    (∀ (g lv : JValue) (p : Pleiad), pyGetItem g "locations" = .ok lv →
      pyTruthy lv = false → Pleiad.build g = .ok p →
      p.attestations = none ∧ p.start_date = none ∧ p.end_date = none ∧
        p.archaeological_remains = none)
    ∧ (∀ (g lv : JValue) (o : PleiadesObject),
      pyGetItem g "locations" = .ok lv → pyTruthy lv = false →
      PleiadesObject.build g = .ok o →
      o.locations_associationCertainty = none ∧
      o.locations_attestations = none ∧ o.locations_id = none ∧
      o.locations_featureTypeURI = none ∧ o.locations_start = none ∧
      o.locations_end = none ∧ o.locations_title = none ∧
      o.locations_archaeologicalRemains = none ∧
      o.locations_details = none ∧ o.locations_accuracy_value = none ∧
      o.locations_featureType = none ∧ o.locations_description = none ∧
      o.locations_locationType = none ∧ o.locations_uri = none ∧
      o.locations_type = none ∧ o.time_periods = [] ∧
      o.confidence_metrics = [] ∧ o.association_certainties = [] ∧
      o.location_types = [])
    ∧ Pleiad.build (recWithLocations .null) = .ok pleiadEmptyOut
    ∧ PleiadesObject.build (recWithLocations .null)
        = .ok pleiadesObjectEmptyOut := by
  refine ⟨?_, ?_, rfl, rfl⟩
  · intro g lv p h1 h2 hb
    have hloc := pleiad_locationsPart_falsy g lv h1 h2
    unfold Pleiad.build at hb
    simp only [except_bind_ok, except_pure_ok] at hb
    obtain ⟨ft, hf, lc, hl, conns, hc, nms, hn, i, hi, subj, hs, tit, ht,
      det, hd, u, hu, desc, hde, pts, hp, bb, hbb, rp, hrp, hfin⟩ := hb
    rw [hloc] at hl
    have hlc : lc = (none, none, none, none) := (Except.ok.inj hl).symm
    subst hlc
    subst hfin
    exact ⟨rfl, rfl, rfl, rfl⟩
  · intro g lv o h1 h2 hb
    have hloc := pleiadesObject_locationsPart_falsy g lv h1 h2
    unfold PleiadesObject.build at hb
    simp only [except_bind_ok, except_pure_ok] at hb
    obtain ⟨ft, hf, lp, hl, conns, hc, nms, hn, i, hi, subj, hs, tit, ht,
      prov, hprov, det, hd, ty, hty, u, hu, desc, hde, pts, hp, bb, hbb,
      rp, hrp, hfin⟩ := hb
    rw [hloc] at hl
    have hlp : lp = {} := (Except.ok.inj hl).symm
    subst hlp
    subst hfin
    exact ⟨rfl, rfl, rfl, rfl, rfl, rfl, rfl, rfl, rfl, rfl, rfl, rfl,
      rfl, rfl, rfl, rfl, rfl, rfl, rfl⟩

/-- Witness for the amended C1 at the otherwise-null record whose
`locations` entry is null. -/
theorem locations_falsy_omitted_witness :
    pyGetItem (recWithLocations .null) "locations" = .ok .null
    ∧ pyTruthy .null = false
    ∧ pleiadEmptyOut.attestations = none
    ∧ pleiadEmptyOut.start_date = none :=
  ⟨rfl, rfl,
    (locations_falsy_omitted.1 (recWithLocations .null) .null pleiadEmptyOut
      rfl rfl locations_falsy_omitted.2.2.1).1,
    (locations_falsy_omitted.1 (recWithLocations .null) .null pleiadEmptyOut
      rfl rfl locations_falsy_omitted.2.2.1).2.1⟩

/-! ### Claim C10 — guards test truthiness, not presence -/

/-- C10: the guards are truthiness tests, so a location field that is
present with any falsy value (for example `start` equal to `0`, `""` or
`[]`) is omitted from the output exactly as if it were absent: both
mappings of a record whose location carries `start := v` with `v` falsy
yield the all-unset output objects (in particular no `start_date` /
`locations_start`), and an empty attestation list likewise leaves the
attestation table unset. -/
theorem falsy_fields_omitted :
    (∀ v : JValue, pyTruthy v = false →
      Pleiad.build (recWithLocations (.arr [locWithStart v]))
        = .ok pleiadEmptyOut
      ∧ PleiadesObject.build (recWithLocations (.arr [locWithStart v]))
        = .ok pleiadesObjectEmptyOut)
    ∧ pleiadEmptyOut.start_date = none
    ∧ pleiadesObjectEmptyOut.locations_start = none
    ∧ Pleiad.build (recWithLocations (.arr [locWithAttestations (.arr [])]))
        = .ok pleiadEmptyOut := by
  refine ⟨?_, rfl, rfl, rfl⟩
  intro v h
  constructor
  · have step : Pleiad.build (recWithLocations (.arr [locWithStart v]))
        = .ok { pleiadEmptyOut with
                start_date := if pyTruthy v then some v else none } := rfl
    rw [step, h]
    rfl
  · have step : PleiadesObject.build
        (recWithLocations (.arr [locWithStart v]))
        = .ok { pleiadesObjectEmptyOut with
                locations_start := if pyTruthy v then some v else none } :=
      rfl
    rw [step, h]
    rfl

/-- Witness for C10 at the spec's example `start == 0`. -/
theorem falsy_fields_omitted_witness :
    pyTruthy (.num 0) = false
    ∧ Pleiad.build (recWithLocations (.arr [locWithStart (.num 0)]))
        = .ok pleiadEmptyOut :=
  ⟨rfl, (falsy_fields_omitted.1 (.num 0) rfl).1⟩

/-! ### Claim C8 — both shapes read the same id field -/

/-- A successful curated mapping's `id` is the guarded read of the
record's `id` entry. -/
theorem pleiad_build_id (g : JValue) (p : Pleiad)
    (h : Pleiad.build g = .ok p) : optField g "id" = .ok p.id := by
  unfold Pleiad.build at h
  simp only [except_bind_ok, except_pure_ok] at h
  obtain ⟨ft, hf, lc, hl, conns, hc, nms, hn, i, hi, subj, hs, tit, ht,
    det, hd, u, hu, desc, hde, pts, hp, bb, hbb, rp, hrp, hfin⟩ := h
  rw [← hfin]
  exact hi

/-- A successful full mapping's `id` is the guarded read of the record's
`id` entry. -/
theorem pleiadesObject_build_id (g : JValue) (o : PleiadesObject)
    (h : PleiadesObject.build g = .ok o) : optField g "id" = .ok o.id := by
  unfold PleiadesObject.build at h
  simp only [except_bind_ok, except_pure_ok] at h
  obtain ⟨ft, hf, lp, hl, conns, hc, nms, hn, i, hi, subj, hs, tit, ht,
    prov, hprov, det, hd, ty, hty, u, hu, desc, hde, pts, hp, bb, hbb,
    rp, hrp, hfin⟩ := h
  rw [← hfin]
  exact hi

/-- C8: whenever both mappings of a record succeed, the full-fidelity
object and the curated object carry the same id (both are the same
guarded read of the record's `id` entry). -/
theorem full_and_curated_same_id :
    ∀ (g : JValue) (o : PleiadesObject) (p : Pleiad),
      PleiadesObject.build g = .ok o → Pleiad.build g = .ok p →
      o.id = p.id := by
  intro g o p ho hp
  have h1 := pleiadesObject_build_id g o ho
  have h2 := pleiad_build_id g p hp
  rw [h1] at h2
  exact Except.ok.inj h2

/-- Witness for C8 at the minimal record. -/
theorem full_and_curated_same_id_witness :
    pleiadesObjectEmptyOut.id = pleiadEmptyOut.id :=
  full_and_curated_same_id nullRec pleiadesObjectEmptyOut pleiadEmptyOut
    rfl rfl

/-! ### Claim C7 — corpus mapping preserves order and fails fast -/

/-- C7: a successful curated corpus mapping returns exactly one output
per input, the i-th output being the mapping of the i-th input; and if
any record's mapping raises, the whole corpus mapping raises (no partial
list is returned). -/
theorem corpus_order_and_fail_fast :
    (∀ (records : List JValue) (ps : List Pleiad),
      PleiadesGetter.get_pleiads records = .ok ps →
      ps.length = records.length ∧
      ∀ (i : Nat) (h1 : i < records.length) (h2 : i < ps.length),
        Pleiad.build (records.get ⟨i, h1⟩) = .ok (ps.get ⟨i, h2⟩))
    ∧ (∀ (records : List JValue) (r : JValue) (e : PyErr),
      r ∈ records → Pleiad.build r = .error e →
      ∃ e2, PleiadesGetter.get_pleiads records = .error e2) := by
  constructor
  · intro records
    induction records with
    | nil =>
      intro ps h
      have hps : ps = [] := (Except.ok.inj h).symm
      subst hps
      exact ⟨rfl, fun i h1 _ => absurd h1 (Nat.not_lt_zero i)⟩
    | cons r rest ih =>
      intro ps h
      unfold PleiadesGetter.get_pleiads at h
      simp only [except_bind_ok, except_pure_ok] at h
      obtain ⟨p, hp, ps2, hrest, hfin⟩ := h
      have hr := ih ps2 hrest
      subst hfin
      refine ⟨by simp [hr.1], ?_⟩
      intro i h1 h2
      cases i with
      | zero => exact hp
      | succ n =>
        exact hr.2 n (Nat.lt_of_succ_lt_succ h1) (Nat.lt_of_succ_lt_succ h2)
  · intro records
    induction records with
    | nil => intro r e hmem; exact absurd hmem (List.not_mem_nil r)
    | cons a rest ih =>
      intro r e hmem herr
      rcases List.mem_cons.mp hmem with hra | hmem2
      · refine ⟨e, ?_⟩
        subst hra
        unfold PleiadesGetter.get_pleiads
        rw [herr]
        rfl
      · cases hbuild : Pleiad.build a with
        | error e3 =>
          refine ⟨e3, ?_⟩
          unfold PleiadesGetter.get_pleiads
          rw [hbuild]
          rfl
        | ok p =>
          obtain ⟨e2, h2⟩ := ih r e hmem2 herr
          refine ⟨e2, ?_⟩
          unfold PleiadesGetter.get_pleiads
          rw [hbuild]
          show PleiadesGetter.get_pleiads rest >>= _ = _
          rw [h2]
          rfl

/-- Witness for C7: a two-record corpus maps to two outputs in order. -/
theorem corpus_order_and_fail_fast_witness :
    PleiadesGetter.get_pleiads [nullRec, recWithLocations .null]
      = .ok [pleiadEmptyOut, pleiadEmptyOut]
    ∧ ([pleiadEmptyOut, pleiadEmptyOut] : List Pleiad).length
      = ([nullRec, recWithLocations .null] : List JValue).length :=
  ⟨rfl, (corpus_order_and_fail_fast.1 [nullRec, recWithLocations .null]
    [pleiadEmptyOut, pleiadEmptyOut] rfl).1⟩

/-! ### Claim C5 — Name construction requires all eleven fields -/

/-- C5: building a `Name` reads all eleven required fields; on a name
sub-document that has the other ten fields (with a well-formed
attestation entry) but lacks `attested`, construction fails with
`KeyError "attested"` (the spec's MissingField naming that field), the
error propagates uncaught through `NamesContainer`, and mapping a whole
record containing that name fails with the same error instead of
producing a partial object. -/
theorem name_missing_field_fails :
    ∀ (kvs : List (String × JValue))
      (n1 n2 n3 n4 av n6 n7 n8 n9 n10 : JValue) (t : PyDict),
      jlookup kvs "nameType" = some n1 →
      jlookup kvs "transcriptionAccuracy" = some n2 →
      jlookup kvs "associationCertainty" = some n3 →
      jlookup kvs "romanized" = some n4 →
      jlookup kvs "attestations" = some av →
      AttestationsContainer.build av = .ok t →
      jlookup kvs "id" = some n6 →
      jlookup kvs "transcriptionCompleteness" = some n7 →
      jlookup kvs "language" = some n8 →
      jlookup kvs "description" = some n9 →
      jlookup kvs "uri" = some n10 →
      jlookup kvs "attested" = none →
      Name.build (.obj kvs) = .error (.keyError "attested")
      ∧ NamesContainer.build (.arr [.obj kvs])
          = .error (.keyError "attested")
      ∧ Pleiad.build (recWithNames (.arr [.obj kvs]))
          = .error (.keyError "attested")
      ∧ PleiadesObject.build (recWithNames (.arr [.obj kvs]))
          = .error (.keyError "attested") := by
  intro kvs n1 n2 n3 n4 av n6 n7 n8 n9 n10 t
  intro h1 h2 h3 h4 h5 hav h6 h7 h8 h9 h10 habs
  have hname : Name.build (.obj kvs) = .error (.keyError "attested") := by
    simp [Name.build, pyGetItem, h1, h2, h3, h4, h5, hav, h6, h7, h8, h9,
      h10, habs, Bind.bind, Except.bind]
  have htr : pyTruthy (.obj kvs) = true := by
    cases kvs with
    | nil => simp [jlookup] at h1
    | cons a l => rfl
  have hnames : NamesContainer.build (.arr [.obj kvs])
      = .error (.keyError "attested") := by
    have step : NamesContainer.build (.arr [.obj kvs])
        = Name.build (.obj kvs) >>= (fun nm => do
            let ns ← namesLoop (.arr [.obj kvs]) []
            pure (nm :: ns)) := rfl
    rw [step, hname]
    rfl
  have e4 : namesPart (recWithNames (.arr [.obj kvs]))
      = .error (.keyError "attested") := by
    have step : namesPart (recWithNames (.arr [.obj kvs]))
        = (if pyTruthy (.obj kvs) = true then do
            let ns ← NamesContainer.build (.arr [.obj kvs])
            pure (some ns)
          else pure none) := rfl
    rw [step, htr]
    simp [Bind.bind, Except.bind, hnames]
  have e1 : Pleiad.featuresPart (recWithNames (.arr [.obj kvs]))
      = .ok (none, none) := rfl
  have e2 : Pleiad.locationsPart (recWithNames (.arr [.obj kvs]))
      = .ok (none, none, none, none) := rfl
  have e3 : connectionsPart (recWithNames (.arr [.obj kvs])) = .ok none := rfl
  have f1 : PleiadesObject.featuresPart (recWithNames (.arr [.obj kvs]))
      = .ok (none, none, none, none) := rfl
  have f2 : PleiadesObject.locationsPart (recWithNames (.arr [.obj kvs]))
      = .ok ({} : LocParts) := rfl
  refine ⟨hname, hnames, ?_, ?_⟩
  · simp [Pleiad.build, e1, e2, e3, e4, Bind.bind, Except.bind]
  · simp [PleiadesObject.build, f1, f2, e3, e4, Bind.bind, Except.bind]

/-- A name sub-document with the ten other required fields present and
`attested` missing. -/
def nameTenFields : List (String × JValue) :=
  [("nameType", .str "geographic"),
   ("transcriptionAccuracy", .str "accurate"),
   ("associationCertainty", .str "certain"),
   ("romanized", .str "Roma"), ("attestations", .arr []),
   ("id", .str "n1"), ("transcriptionCompleteness", .str "complete"),
   ("language", .str "la"), ("description", .str "d"), ("uri", .str "u")]

/-- Witness for C5 at `nameTenFields`. -/
theorem name_missing_field_fails_witness :
    jlookup nameTenFields "attested" = none
    ∧ Name.build (.obj nameTenFields) = .error (.keyError "attested")
    ∧ Pleiad.build (recWithNames (.arr [.obj nameTenFields]))
        = .error (.keyError "attested") :=
  ⟨rfl,
    (name_missing_field_fails nameTenFields _ _ _ _ _ _ _ _ _ _ []
      rfl rfl rfl rfl rfl rfl rfl rfl rfl rfl rfl rfl).1,
    (name_missing_field_fails nameTenFields _ _ _ _ _ _ _ _ _ _ []
      rfl rfl rfl rfl rfl rfl rfl rfl rfl rfl rfl rfl).2.2.1⟩

end PleiadesParser
